import Mathlib

/-!
Verification development for the AI Story Generator (`src/app.py`).

The program is a single-file Streamlit app: it collects user inputs
(topic, genre, language, age, character name, parent-safe toggle),
assembles a two-message prompt, invokes an external LLM chain whose
output is parsed into a three-field record `StoryOutput`, renders the
result in the UI, and offers a PDF built by `generate_pdf` for download.

The embedding below models:
* `StoryOutput` — the pydantic output schema (app.py lines 13-16);
* `parseStoryReply` — the output parsing step of the chain (the pydantic
  output parser is third-party library code, so it is modelled from the
  spec's contract for the generation client);
* the prompt template (app.py lines 24-50) as explicit string assembly;
* `story_chain` — prompt | llm | parser, with the external LLM an oracle
  parameter;
* `generate_pdf` (app.py lines 68-87) as a symbolic PDF document: a page
  size tag plus the ordered list of text lines with their fonts;
* the Streamlit event handler for the generate button (app.py
  lines 109-148) as a pure function from inputs and the LLM oracle to the
  ordered list of UI effects it performs.
-/

/-- Output schema of the story chain (app.py lines 13-16): the three
required fields Topic, Story, Moral. -/
structure StoryOutput where
  Topic : String
  Story : String
  Moral : String
deriving Repr, DecidableEq

/-- The opening-brace character, written via its code point. -/
def lbrace : Char := Char.ofNat 123

/-- The closing-brace character, written via its code point. -/
def rbrace : Char := Char.ofNat 125

/-- Drop leading JSON whitespace. -/
def skipWs : List Char → List Char
  | [] => []
  | c :: cs =>
    if c = ' ' ∨ c = '\n' ∨ c = '\t' ∨ c = '\r' then skipWs cs else c :: cs

/-- Read characters of a string literal body up to the closing quote. -/
def takeStringBody : List Char → Option (List Char × List Char)
  | [] => none
  | c :: cs =>
    if c = '"' then some ([], cs)
    else
      match takeStringBody cs with
      | some (s, rest) => some (c :: s, rest)
      | none => none

/-- Parse a double-quoted string literal, allowing leading whitespace. -/
def parseStringLit (cs : List Char) : Option (String × List Char) :=
  match skipWs cs with
  | [] => none
  | c :: rest =>
    if c = '"' then
      match takeStringBody rest with
      | some (s, rest2) => some (⟨s⟩, rest2)
      | none => none
    else none

/-- Parse one `"key": "value"` pair. -/
def parsePair (cs : List Char) : Option ((String × String) × List Char) :=
  match parseStringLit cs with
  | none => none
  | some (k, rest) =>
    match skipWs rest with
    | [] => none
    | c :: rest2 =>
      if c = ':' then
        match parseStringLit rest2 with
        | none => none
        | some (v, rest3) => some ((k, v), rest3)
      else none

/-- Parse a comma-separated sequence of pairs up to the closing brace.
The first argument is fuel bounding the number of pairs. -/
def parsePairsAux : Nat → List Char → Option (List (String × String) × List Char)
  | 0, _ => none
  | Nat.succ fuel, cs =>
    match parsePair cs with
    | none => none
    | some (kv, rest) =>
      match skipWs rest with
      | [] => none
      | c :: rest2 =>
        if c = ',' then
          match parsePairsAux fuel rest2 with
          | some (kvs, rest3) => some (kv :: kvs, rest3)
          | none => none
        else if c = rbrace then some ([kv], rest2)
        else none

/-- Parse a whole reply as exactly one JSON object of string fields, with
nothing but whitespace around it; any text outside the object (extra
prose) makes the parse fail. -/
def parseTopLevel (cs : List Char) : Option (List (String × String)) :=
  match skipWs cs with
  | [] => none
  | c :: rest =>
    if c = lbrace then
      match skipWs rest with
      | [] => none
      | c2 :: rest2 =>
        if c2 = rbrace then
          match skipWs rest2 with
          | [] => some []
          | _ :: _ => none
        else
          match parsePairsAux (rest.length + 1) (c2 :: rest2) with
          | some (kvs, rest3) =>
            match skipWs rest3 with
            | [] => some kvs
            | _ :: _ => none
          | none => none
    else none

/-- First value bound to `key`, if any. -/
def getField : List (String × String) → String → Option String
  | [], _ => none
  | (k, v) :: rest, key => if k = key then some v else getField rest key

/-- Modelled from the spec: the generation client's output-parsing step
(the pydantic output parser behind `story_parser`, third-party library
code not in `src/`). Per the spec, the expected inbound payload is
JSON-shaped text matching exactly the three string fields Topic, Story,
Moral with no markdown or extra commentary; any reply that cannot be
parsed into exactly those three fields (malformed structure, missing
field, extra prose outside the JSON-like structure) is rejected. -/
def parseStoryReply (reply : String) : Option StoryOutput :=
  match parseTopLevel reply.toList with
  | none => none
  | some kvs =>
    if kvs.length = 3 then
      match getField kvs "Topic", getField kvs "Story", getField kvs "Moral" with
      | some t, some s, some m => some ⟨t, s, m⟩
      | _, _, _ => none
    else none

/-- Failure modes of one run of the story chain: a schema violation from
the output-parsing step, or any error raised by the external service
call itself. -/
inductive GenError where
  | schemaViolation
  | serviceError (detail : String)
deriving Repr, DecidableEq

/-- The dictionary passed to `story_chain.invoke` (app.py lines 117-124):
topic, genre, language, age, name, parent_safe. -/
structure GenInput where
  topic : String
  genre : String
  language : String
  age : Nat
  name : String
  parent_safe : Bool
deriving Repr, DecidableEq

/-- System message of the prompt template (app.py lines 25-29); the
pieces are concatenated exactly as Python's implicit literal
concatenation does, including the missing spaces at the seams. -/
def systemMessage : String :=
  "You are a creative, professional and award winning author who writes engaging, exciting, suspense-full" ++
  "and emotionally rich short stories with strong character arcs and a satisfying ending according to the reader's age." ++
  "You MUST return ONLY valid JSON. " ++
  "Do NOT include explanations, markdown, or extra text."

/-- Modelled from the spec: the formatting instructions produced by the
output parser library (`story_parser.get_format_instructions()`, not in
`src/`), obligating the service to emit exactly the three fields of
`StoryOutput` and nothing else. -/
def format_instructions : String :=
  "Return ONLY a JSON object whose keys are exactly Topic, Story and Moral, each mapped to a string, with no markdown and no extra text."

/-- The age-banded content guidance block of the human message
(app.py lines 41-45), verbatim. -/
def ageGuidelinesTable : String :=
"Age Guidelines:
        - Age 3–6: Very simple words, cheerful tone, short sentences
        - Age 7–12: Simple plot, light adventure, positive moral
        - Age 13–17: Deeper emotions, character growth, mild conflict
        - Age 18+: Mature themes, nuanced characters, richer language"

/-- Human message of the prompt template (app.py lines 30-49) with the
placeholders substituted: the template interpolates only topic, age,
genre, name and format_instructions. -/
def humanMessage (i : GenInput) : String :=
"
        Write a 400 words story based on the following details:

        Theme / Topic: " ++ i.topic ++ "
        Reader Age: " ++ toString i.age ++ "
        Genre: " ++ i.genre ++ "
        Character: " ++ i.name ++ "

        " ++ format_instructions ++ "

        " ++ ageGuidelinesTable ++ "

        Ensure the content is fully appropriate for the given age.
        "

/-- The assembled prompt sent to the generation service: the system and
human messages produced by the chat prompt template. -/
def assembledMessages (i : GenInput) : List (String × String) :=
  [("system", systemMessage), ("human", humanMessage i)]

/-- `story_chain = prompt | llm | story_parser` (app.py line 63). The
external LLM is an oracle mapping the assembled messages to either a raw
textual reply or a service error; the reply is then parsed, a parse
failure becoming a schema violation. The chain performs exactly one
service call and never retries. -/
def story_chain (llm : List (String × String) → Except GenError String)
    (input : GenInput) : Except GenError StoryOutput :=
  match llm (assembledMessages input) with
  | Except.error e => Except.error e
  | Except.ok reply =>
    match parseStoryReply reply with
    | some out => Except.ok out
    | none => Except.error GenError.schemaViolation

/-- Python's `str.split` on a newline separator, on character lists:
`splitNl [] = [[]]` just as `"".split` yields one empty piece. -/
def splitNl : List Char → List (List Char)
  | [] => [[]]
  | c :: cs =>
    if c = '\n' then
      [] :: splitNl cs
    else
      match splitNl cs with
      | [] => [[c]]
      | l :: ls => (c :: l) :: ls

/-- `result.Story.split("\n")` (app.py line 78): the story text split
only at its existing newline breaks. -/
def splitStoryLines (s : String) : List String :=
  (splitNl s.toList).map (fun l => ⟨l⟩)

/-- The fixed page size used by the canvas (app.py line 70). -/
inductive PageSize where
  | A4
deriving Repr, DecidableEq

/-- One line emitted through `text.textLine`, with the font state active
when it was drawn. -/
structure PdfLine where
  font : String
  size : Nat
  text : String
deriving Repr, DecidableEq

/-- The document produced by `generate_pdf`: its page size, the ordered
lines drawn into its text object, and the file path it returns. -/
structure PdfDoc where
  pageSize : PageSize
  lines : List PdfLine
  path : String
deriving Repr, DecidableEq

/-- `generate_pdf` (app.py lines 68-87). `tempName` stands for the name
of the fresh temporary file the function creates with suffix ".pdf" and
returns. The title is drawn first in Helvetica-Bold 14, then a blank
line, then the story split at its newline breaks in Helvetica 11 (no
word-wrap), then the line `"\nMoral:"` and the moral text. -/
def generate_pdf (result : StoryOutput) (tempName : String) : PdfDoc :=
  { pageSize := PageSize.A4
  , lines :=
      ⟨"Helvetica-Bold", 14, result.Topic⟩ ::
      ⟨"Helvetica-Bold", 14, ""⟩ ::
      ((splitStoryLines result.Story).map (fun l => ⟨"Helvetica", 11, l⟩) ++
        [⟨"Helvetica", 11, "\nMoral:"⟩, ⟨"Helvetica", 11, result.Moral⟩])
  , path := tempName }

/-- `parent_safe = False if age > 18 else st.checkbox(...)` (app.py
line 109): the effective flag given the age and the value the checkbox
widget would have. -/
def parent_safe (age : Nat) (checkboxValue : Bool) : Bool :=
  if age > 18 then false else checkboxValue

/-- Whether the parent-safe checkbox widget is rendered at all: in the
conditional expression on app.py line 109, `st.checkbox` is evaluated
only when `age > 18` is false. -/
def checkboxShown (age : Nat) : Bool :=
  if age > 18 then false else true

/-- One observable UI effect of the generate-button handler, in order:
Streamlit warnings, the chain invocation, subheaders and writes, the
download button (carrying the generated document), and error displays. -/
inductive UIEvent where
  | warning (msg : String)
  | spinner (msg : String)
  | invokeChain (input : GenInput)
  | subheader (title : String)
  | write (content : String)
  | downloadButton (label fileName mime : String) (doc : PdfDoc)
  | errorMsg (msg : String)
  | exceptionDetail (e : GenError)
deriving Repr, DecidableEq

/-- The generate-button handler (app.py lines 111-148) as the ordered
list of UI effects of one click. If topic or name is empty it warns and
stops; otherwise it invokes the chain once, and either renders topic,
story, conditionally the moral, and the download button, or, on any
exception, renders the generic failure message and the exception
detail. -/
def generateHandler (llm : List (String × String) → Except GenError String)
    (tempName user_topic genre language : String) (age : Nat)
    (name : String) (checkboxValue : Bool) : List UIEvent :=
  if user_topic = "" ∨ name = "" then
    [UIEvent.warning "Please fill all required fields."]
  else
    let input : GenInput :=
      ⟨user_topic, genre, language, age, name, parent_safe age checkboxValue⟩
    UIEvent.spinner "Creating your story..." ::
    UIEvent.invokeChain input ::
    (match story_chain llm input with
     | Except.ok result =>
         [UIEvent.subheader "📌 Topic", UIEvent.write result.Topic,
          UIEvent.subheader "📚 Story", UIEvent.write result.Story] ++
         (if genre = "Motivational" ∨ genre = "Educational" then
           [UIEvent.subheader "🌱 Moral", UIEvent.write result.Moral]
          else []) ++
         [UIEvent.downloadButton "📄 Download as PDF" "story.pdf"
            "application/pdf" (generate_pdf result tempName)]
     | Except.error e =>
         [UIEvent.errorMsg "Story generation failed.",
          UIEvent.exceptionDetail e])

/-- Number of chain invocations (service calls) recorded in a trace. -/
def invokeCount (trace : List UIEvent) : Nat :=
  (trace.filter (fun ev =>
    match ev with
    | UIEvent.invokeChain _ => true
    | _ => false)).length

/-! ## Trace shape lemmas for the generate-button handler -/

/-- When topic or name is empty the handler only warns. -/
theorem generateHandler_warn_trace
    (llm : List (String × String) → Except GenError String)
    (tempName u g l : String) (age : Nat) (n : String) (cb : Bool)
    (h : u = "" ∨ n = "") :
    generateHandler llm tempName u g l age n cb =
      [UIEvent.warning "Please fill all required fields."] := by
  simp only [generateHandler, if_pos h]

/-- When the inputs are non-empty and the chain fails, the handler's
trace is exactly: spinner, one chain invocation, the generic failure
message, and the exception detail. -/
theorem generateHandler_error_trace
    (llm : List (String × String) → Except GenError String)
    (tempName u g l : String) (age : Nat) (n : String) (cb : Bool) (e : GenError)
    (hu : u ≠ "") (hn : n ≠ "")
    (he : story_chain llm ⟨u, g, l, age, n, parent_safe age cb⟩ = Except.error e) :
    generateHandler llm tempName u g l age n cb =
      [UIEvent.spinner "Creating your story...",
       UIEvent.invokeChain ⟨u, g, l, age, n, parent_safe age cb⟩,
       UIEvent.errorMsg "Story generation failed.",
       UIEvent.exceptionDetail e] := by
  have hne : ¬(u = "" ∨ n = "") := by
    push_neg
    exact ⟨hu, hn⟩
  simp only [generateHandler, if_neg hne, he]

/-- When the inputs are non-empty and the chain succeeds, the handler's
trace is exactly: spinner, one chain invocation, topic and story
display, the moral section for the two moral-bearing genres only, and
the download button carrying the generated PDF. -/
theorem generateHandler_ok_trace
    (llm : List (String × String) → Except GenError String)
    (tempName u g l : String) (age : Nat) (n : String) (cb : Bool) (r : StoryOutput)
    (hu : u ≠ "") (hn : n ≠ "")
    (hs : story_chain llm ⟨u, g, l, age, n, parent_safe age cb⟩ = Except.ok r) :
    generateHandler llm tempName u g l age n cb =
      UIEvent.spinner "Creating your story..." ::
      UIEvent.invokeChain ⟨u, g, l, age, n, parent_safe age cb⟩ ::
      ([UIEvent.subheader "📌 Topic", UIEvent.write r.Topic,
        UIEvent.subheader "📚 Story", UIEvent.write r.Story] ++
       (if g = "Motivational" ∨ g = "Educational" then
         [UIEvent.subheader "🌱 Moral", UIEvent.write r.Moral]
        else []) ++
       [UIEvent.downloadButton "📄 Download as PDF" "story.pdf"
          "application/pdf" (generate_pdf r tempName)]) := by
  have hne : ¬(u = "" ∨ n = "") := by
    push_neg
    exact ⟨hu, hn⟩
  simp only [generateHandler, if_neg hne, hs]

/-- Any chain invocation recorded in a handler trace received exactly
the input record built from the user's fields with the effective
parent-safe flag. -/
theorem invokeChain_mem_input
    (llm : List (String × String) → Except GenError String)
    (tempName u g l : String) (age : Nat) (n : String) (cb : Bool) (i : GenInput)
    (hi : UIEvent.invokeChain i ∈ generateHandler llm tempName u g l age n cb) :
    i = ⟨u, g, l, age, n, parent_safe age cb⟩ := by
  by_cases hw : u = "" ∨ n = ""
  · rw [generateHandler_warn_trace llm tempName u g l age n cb hw] at hi
    simp at hi
  · push_neg at hw
    rcases hc : story_chain llm ⟨u, g, l, age, n, parent_safe age cb⟩ with e | r
    · rw [generateHandler_error_trace llm tempName u g l age n cb e hw.1 hw.2 hc] at hi
      simpa using hi
    · rw [generateHandler_ok_trace llm tempName u g l age n cb r hw.1 hw.2 hc] at hi
      by_cases hg : g = "Motivational" ∨ g = "Educational" <;>
        simpa [hg] using hi

/-! ## Claims -/

/-- C1: for every reply from the generation service that cannot be
parsed into the three required fields Topic, Story, Moral (malformed
structure, missing field, or extra prose outside the JSON-like
structure), the generation client fails with the schema-violation
error; this failure is not retried automatically (exactly one chain
invocation appears in the trace) and propagates to the Shell, whose
handler returns normally with a trace showing an error instead of a
rendered story. -/
theorem C1_unparseable_reply_schema_violation_propagates
    (reply tempName u g l : String) (age : Nat) (n : String) (cb : Bool)
    (hu : u ≠ "") (hn : n ≠ "") (hp : parseStoryReply reply = none) :
    generateHandler (fun _ => Except.ok reply) tempName u g l age n cb =
      [UIEvent.spinner "Creating your story...",
       UIEvent.invokeChain ⟨u, g, l, age, n, parent_safe age cb⟩,
       UIEvent.errorMsg "Story generation failed.",
       UIEvent.exceptionDetail GenError.schemaViolation] ∧
    invokeCount (generateHandler (fun _ => Except.ok reply) tempName u g l age n cb) = 1 := by
  have he : story_chain (fun _ => Except.ok reply)
      ⟨u, g, l, age, n, parent_safe age cb⟩ = Except.error GenError.schemaViolation := by
    simp [story_chain, hp]
  have h1 := generateHandler_error_trace (fun _ => Except.ok reply)
    tempName u g l age n cb GenError.schemaViolation hu hn he
  refine ⟨h1, ?_⟩
  rw [h1]
  rfl

/-- C1 witness: a reply with extra prose around the JSON-like structure
is rejected and the handler shows the failure, with exactly one chain
invocation. -/
theorem C1_unparseable_reply_schema_violation_propagates_witness :
    generateHandler
        (fun _ => Except.ok "Sure! Here is your story: \x7b\"Topic\": \"T\", \"Story\": \"S\", \"Moral\": \"M\"\x7d Enjoy!")
        "tmp123.pdf" "a brave fox" "Adventure" "English" 8 "Mia" true =
      [UIEvent.spinner "Creating your story...",
       UIEvent.invokeChain ⟨"a brave fox", "Adventure", "English", 8, "Mia", parent_safe 8 true⟩,
       UIEvent.errorMsg "Story generation failed.",
       UIEvent.exceptionDetail GenError.schemaViolation] ∧
    invokeCount (generateHandler
        (fun _ => Except.ok "Sure! Here is your story: \x7b\"Topic\": \"T\", \"Story\": \"S\", \"Moral\": \"M\"\x7d Enjoy!")
        "tmp123.pdf" "a brave fox" "Adventure" "English" 8 "Mia" true) = 1 :=
  C1_unparseable_reply_schema_violation_propagates
    "Sure! Here is your story: \x7b\"Topic\": \"T\", \"Story\": \"S\", \"Moral\": \"M\"\x7d Enjoy!"
    "tmp123.pdf" "a brave fox" "Adventure" "English" 8 "Mia" true
    (by decide) (by decide) (by decide)

/-- C2: whenever the topic field or the character-name field is empty,
pressing generate only produces the inline warning: the generation
client is never invoked (zero chain invocations in the trace). -/
theorem C2_empty_fields_warn_no_invoke
    (llm : List (String × String) → Except GenError String)
    (tempName u g l : String) (age : Nat) (n : String) (cb : Bool)
    (h : u = "" ∨ n = "") :
    generateHandler llm tempName u g l age n cb =
      [UIEvent.warning "Please fill all required fields."] ∧
    invokeCount (generateHandler llm tempName u g l age n cb) = 0 := by
  have h1 := generateHandler_warn_trace llm tempName u g l age n cb h
  refine ⟨h1, ?_⟩
  rw [h1]
  rfl

/-- C2 witness: with an empty character name the handler only warns and
performs no chain invocation. -/
theorem C2_empty_fields_warn_no_invoke_witness :
    generateHandler (fun _ => Except.ok "unused") "t.pdf" "a brave fox" "Adventure" "English" 8 "" true =
      [UIEvent.warning "Please fill all required fields."] ∧
    invokeCount (generateHandler (fun _ => Except.ok "unused") "t.pdf" "a brave fox" "Adventure" "English" 8 "" true) = 0 :=
  C2_empty_fields_warn_no_invoke (fun _ => Except.ok "unused") "t.pdf" "a brave fox"
    "Adventure" "English" 8 "" true (Or.inr rfl)

/-- C3: for every age strictly greater than 18, the effective
parent-safe flag is false regardless of the checkbox state, the
checkbox widget is not rendered, and every input record handed to the
generation chain by the handler carries a false parent-safe flag; for
ages 18 and below the checkbox is rendered and its value is passed
through unchanged. -/
theorem C3_parent_safe_forced_false_above_18 (age : Nat) (cb : Bool) :
    (18 < age →
      parent_safe age cb = false ∧
      checkboxShown age = false ∧
      ∀ (llm : List (String × String) → Except GenError String)
        (tempName u g l n : String) (i : GenInput),
        UIEvent.invokeChain i ∈ generateHandler llm tempName u g l age n cb →
        i.parent_safe = false) ∧
    (age ≤ 18 → checkboxShown age = true ∧ parent_safe age cb = cb) := by
  constructor
  · intro h
    refine ⟨by simp [parent_safe, h], by simp [checkboxShown, h], ?_⟩
    intro llm tempName u g l n i hi
    have hieq := invokeChain_mem_input llm tempName u g l age n cb i hi
    subst hieq
    simp [parent_safe, h]
  · intro h
    have hnot : ¬ age > 18 := by omega
    exact ⟨by simp [checkboxShown, hnot], by simp [parent_safe, hnot]⟩

/-- C3 witness: at age 19 the flag is forced false and the checkbox is
absent even with the checkbox on; at age 18 the checkbox is shown and
its value (true) is passed through. -/
theorem C3_parent_safe_forced_false_above_18_witness :
    parent_safe 19 true = false ∧
    checkboxShown 19 = false ∧
    checkboxShown 18 = true ∧
    parent_safe 18 true = true :=
  ⟨((C3_parent_safe_forced_false_above_18 19 true).1 (by decide)).1,
   ((C3_parent_safe_forced_false_above_18 19 true).1 (by decide)).2.1,
   ((C3_parent_safe_forced_false_above_18 18 true).2 (by decide)).1,
   ((C3_parent_safe_forced_false_above_18 18 true).2 (by decide)).2⟩

/-- C4: on any exception raised by the generation chain, the handler
shows the generic failure message plus the underlying exception detail,
invokes the chain exactly once (no automatic retry), offers no download
control, and writes no partial result content for that request. -/
theorem C4_exception_generic_failure_no_download
    (llm : List (String × String) → Except GenError String)
    (tempName u g l : String) (age : Nat) (n : String) (cb : Bool) (e : GenError)
    (hu : u ≠ "") (hn : n ≠ "")
    (he : story_chain llm ⟨u, g, l, age, n, parent_safe age cb⟩ = Except.error e) :
    generateHandler llm tempName u g l age n cb =
      [UIEvent.spinner "Creating your story...",
       UIEvent.invokeChain ⟨u, g, l, age, n, parent_safe age cb⟩,
       UIEvent.errorMsg "Story generation failed.",
       UIEvent.exceptionDetail e] ∧
    invokeCount (generateHandler llm tempName u g l age n cb) = 1 ∧
    (∀ (lbl fn mime : String) (doc : PdfDoc),
      UIEvent.downloadButton lbl fn mime doc ∉ generateHandler llm tempName u g l age n cb) ∧
    (∀ s : String, UIEvent.write s ∉ generateHandler llm tempName u g l age n cb) := by
  have h1 := generateHandler_error_trace llm tempName u g l age n cb e hu hn he
  refine ⟨h1, by rw [h1]; rfl, ?_, ?_⟩
  · intro lbl fn mime doc
    rw [h1]
    simp
  · intro s
    rw [h1]
    simp

/-- C4 witness: a service error on concrete inputs yields exactly the
failure trace, one invocation, no download control and no written
content. -/
theorem C4_exception_generic_failure_no_download_witness :
    generateHandler (fun _ => Except.error (GenError.serviceError "connection reset"))
        "t.pdf" "a brave fox" "Adventure" "English" 8 "Mia" true =
      [UIEvent.spinner "Creating your story...",
       UIEvent.invokeChain ⟨"a brave fox", "Adventure", "English", 8, "Mia", parent_safe 8 true⟩,
       UIEvent.errorMsg "Story generation failed.",
       UIEvent.exceptionDetail (GenError.serviceError "connection reset")] ∧
    invokeCount (generateHandler (fun _ => Except.error (GenError.serviceError "connection reset"))
        "t.pdf" "a brave fox" "Adventure" "English" 8 "Mia" true) = 1 ∧
    (∀ (lbl fn mime : String) (doc : PdfDoc),
      UIEvent.downloadButton lbl fn mime doc ∉
        generateHandler (fun _ => Except.error (GenError.serviceError "connection reset"))
          "t.pdf" "a brave fox" "Adventure" "English" 8 "Mia" true) ∧
    (∀ s : String, UIEvent.write s ∉
        generateHandler (fun _ => Except.error (GenError.serviceError "connection reset"))
          "t.pdf" "a brave fox" "Adventure" "English" 8 "Mia" true) :=
  C4_exception_generic_failure_no_download
    (fun _ => Except.error (GenError.serviceError "connection reset"))
    "t.pdf" "a brave fox" "Adventure" "English" 8 "Mia" true
    (GenError.serviceError "connection reset") (by decide) (by decide) rfl

/-- C5: on a successful generation the Shell always displays the Topic
and the Story, and the Moral section appears in the trace if and only
if the selected genre is "Motivational" or "Educational"; for every
other genre the full trace contains no moral section at all. -/
theorem C5_moral_shown_iff_moral_genre
    (llm : List (String × String) → Except GenError String)
    (tempName u g l : String) (age : Nat) (n : String) (cb : Bool) (r : StoryOutput)
    (hu : u ≠ "") (hn : n ≠ "")
    (hs : story_chain llm ⟨u, g, l, age, n, parent_safe age cb⟩ = Except.ok r) :
    UIEvent.write r.Topic ∈ generateHandler llm tempName u g l age n cb ∧
    UIEvent.write r.Story ∈ generateHandler llm tempName u g l age n cb ∧
    (UIEvent.subheader "🌱 Moral" ∈ generateHandler llm tempName u g l age n cb ↔
      (g = "Motivational" ∨ g = "Educational")) ∧
    (¬(g = "Motivational" ∨ g = "Educational") →
      generateHandler llm tempName u g l age n cb =
        [UIEvent.spinner "Creating your story...",
         UIEvent.invokeChain ⟨u, g, l, age, n, parent_safe age cb⟩,
         UIEvent.subheader "📌 Topic", UIEvent.write r.Topic,
         UIEvent.subheader "📚 Story", UIEvent.write r.Story,
         UIEvent.downloadButton "📄 Download as PDF" "story.pdf"
           "application/pdf" (generate_pdf r tempName)]) := by
  have h1 := generateHandler_ok_trace llm tempName u g l age n cb r hu hn hs
  rw [h1]
  refine ⟨by simp, by simp, ?_, ?_⟩
  · by_cases hg : g = "Motivational" ∨ g = "Educational" <;> simp [hg]
  · intro hg
    simp [hg]

/-- C5 witness: with genre "Adventure" and a conforming reply, topic and
story are shown, the moral section is absent, and the trace is the
seven-event success trace without a moral section. -/
theorem C5_moral_shown_iff_moral_genre_witness :
    UIEvent.write "T" ∈ generateHandler
        (fun _ => Except.ok "\x7b\"Topic\": \"T\", \"Story\": \"S\", \"Moral\": \"M\"\x7d")
        "t.pdf" "a brave fox" "Adventure" "English" 8 "Mia" true ∧
    UIEvent.write "S" ∈ generateHandler
        (fun _ => Except.ok "\x7b\"Topic\": \"T\", \"Story\": \"S\", \"Moral\": \"M\"\x7d")
        "t.pdf" "a brave fox" "Adventure" "English" 8 "Mia" true ∧
    (UIEvent.subheader "🌱 Moral" ∈ generateHandler
        (fun _ => Except.ok "\x7b\"Topic\": \"T\", \"Story\": \"S\", \"Moral\": \"M\"\x7d")
        "t.pdf" "a brave fox" "Adventure" "English" 8 "Mia" true ↔
      ("Adventure" = "Motivational" ∨ "Adventure" = "Educational")) ∧
    (¬("Adventure" = "Motivational" ∨ "Adventure" = "Educational") →
      generateHandler
          (fun _ => Except.ok "\x7b\"Topic\": \"T\", \"Story\": \"S\", \"Moral\": \"M\"\x7d")
          "t.pdf" "a brave fox" "Adventure" "English" 8 "Mia" true =
        [UIEvent.spinner "Creating your story...",
         UIEvent.invokeChain ⟨"a brave fox", "Adventure", "English", 8, "Mia", parent_safe 8 true⟩,
         UIEvent.subheader "📌 Topic", UIEvent.write "T",
         UIEvent.subheader "📚 Story", UIEvent.write "S",
         UIEvent.downloadButton "📄 Download as PDF" "story.pdf"
           "application/pdf" (generate_pdf ⟨"T", "S", "M"⟩ "t.pdf")]) :=
  C5_moral_shown_iff_moral_genre
    (fun _ => Except.ok "\x7b\"Topic\": \"T\", \"Story\": \"S\", \"Moral\": \"M\"\x7d")
    "t.pdf" "a brave fox" "Adventure" "English" 8 "Mia" true ⟨"T", "S", "M"⟩
    (by decide) (by decide) rfl

/-- C6: for every StoryResult, the document renderer produces a
document on the fixed standard page size whose line list is non-empty,
whose first line is the title in the bold heading font (Helvetica-Bold
14), followed by a blank line, the story body split only at its
existing newline breaks (no automatic word-wrap), the "Moral:" label
line (preceded in the source by a literal newline escape) and the moral
text in the body font; the renderer returns the path of the freshly
created temporary file it was given. -/
theorem C6_generate_pdf_structure (r : StoryOutput) (tempName : String) :
    (generate_pdf r tempName).pageSize = PageSize.A4 ∧
    (generate_pdf r tempName).lines ≠ [] ∧
    (generate_pdf r tempName).lines.head? = some ⟨"Helvetica-Bold", 14, r.Topic⟩ ∧
    (generate_pdf r tempName).lines =
      ⟨"Helvetica-Bold", 14, r.Topic⟩ ::
      ⟨"Helvetica-Bold", 14, ""⟩ ::
      ((splitStoryLines r.Story).map (fun l => ⟨"Helvetica", 11, l⟩) ++
        [⟨"Helvetica", 11, "\nMoral:"⟩, ⟨"Helvetica", 11, r.Moral⟩]) ∧
    ("\nMoral:" : String) = "\n" ++ "Moral:" ∧
    (generate_pdf r tempName).path = tempName := by
  exact ⟨rfl, by simp [generate_pdf], rfl, rfl, rfl, rfl⟩

/-- C7: the selected story language is never interpolated into the
generation instruction: any two invoke inputs that agree on topic,
genre, age, name and parent-safe flag — differing at most in the
language selection — yield identical assembled messages. -/
theorem C7_language_never_in_prompt (i j : GenInput)
    (ht : i.topic = j.topic) (hg : i.genre = j.genre) (ha : i.age = j.age)
    (hn : i.name = j.name) (_hp : i.parent_safe = j.parent_safe) :
    assembledMessages i = assembledMessages j := by
  simp [assembledMessages, humanMessage, ht, hg, ha, hn]

/-- C7 witness: two runs differing only in the language (Hindi vs
Gujarati) send the same assembled messages to the service. -/
theorem C7_language_never_in_prompt_witness :
    assembledMessages ⟨"a brave fox", "Adventure", "Hindi", 8, "Mia", true⟩ =
    assembledMessages ⟨"a brave fox", "Adventure", "Gujarati", 8, "Mia", true⟩ :=
  C7_language_never_in_prompt
    ⟨"a brave fox", "Adventure", "Hindi", 8, "Mia", true⟩
    ⟨"a brave fox", "Adventure", "Gujarati", 8, "Mia", true⟩
    rfl rfl rfl rfl rfl

set_option maxRecDepth 8000 in
/-- C8: every assembled human message embeds the age-banded content
guidance block, which is exactly the four-band lookup table (3–6 simple
and cheerful, 7–12 light adventure with positive moral, 13–17 deeper
emotion and mild conflict, 18+ mature themes); in particular the block
contains the 7–12 band line, so every generation request — including
one for age 8 — includes the guidance for ages 7–12. -/
theorem C8_age_guidance_in_every_prompt (i : GenInput) :
    (∃ p q : String, humanMessage i = p ++ (ageGuidelinesTable ++ q)) ∧
    ageGuidelinesTable =
      "Age Guidelines:\n        - Age 3–6: Very simple words, cheerful tone, short sentences\n        - Age 7–12: Simple plot, light adventure, positive moral\n        - Age 13–17: Deeper emotions, character growth, mild conflict\n        - Age 18+: Mature themes, nuanced characters, richer language" ∧
    (∃ p q : String,
      ageGuidelinesTable =
        p ++ ("- Age 7–12: Simple plot, light adventure, positive moral" ++ q)) := by
  refine ⟨?_, rfl, ?_⟩
  · refine ⟨"\n        Write a 400 words story based on the following details:\n\n        Theme / Topic: " ++
      (i.topic ++ ("\n        Reader Age: " ++ (toString i.age ++ ("\n        Genre: " ++
      (i.genre ++ ("\n        Character: " ++ (i.name ++ ("\n\n        " ++
      (format_instructions ++ "\n\n        "))))))))),
      "\n\n        Ensure the content is fully appropriate for the given age.\n        ", ?_⟩
    simp only [humanMessage, String.append_assoc]
  · exact ⟨"Age Guidelines:\n        - Age 3–6: Very simple words, cheerful tone, short sentences\n        ",
      "\n        - Age 13–17: Deeper emotions, character growth, mild conflict\n        - Age 18+: Mature themes, nuanced characters, richer language",
      by decide⟩

/-- C9: on every successful generation, whatever the genre — including
the genres for which the moral section is hidden in the UI — the
download button offers the PDF built by the renderer, and that PDF
contains the "Moral:" label line and the moral text. -/
theorem C9_pdf_always_contains_moral
    (llm : List (String × String) → Except GenError String)
    (tempName u g l : String) (age : Nat) (n : String) (cb : Bool) (r : StoryOutput)
    (hu : u ≠ "") (hn : n ≠ "")
    (hs : story_chain llm ⟨u, g, l, age, n, parent_safe age cb⟩ = Except.ok r) :
    UIEvent.downloadButton "📄 Download as PDF" "story.pdf" "application/pdf"
        (generate_pdf r tempName) ∈ generateHandler llm tempName u g l age n cb ∧
    (⟨"Helvetica", 11, "\nMoral:"⟩ : PdfLine) ∈ (generate_pdf r tempName).lines ∧
    (⟨"Helvetica", 11, r.Moral⟩ : PdfLine) ∈ (generate_pdf r tempName).lines := by
  have h1 := generateHandler_ok_trace llm tempName u g l age n cb r hu hn hs
  rw [h1]
  refine ⟨by simp, by simp [generate_pdf], by simp [generate_pdf]⟩

/-- C9 witness: with genre "Adventure" (moral hidden in the UI) the
offered PDF still contains the "Moral:" label and the moral text. -/
theorem C9_pdf_always_contains_moral_witness :
    UIEvent.downloadButton "📄 Download as PDF" "story.pdf" "application/pdf"
        (generate_pdf ⟨"T", "S", "M"⟩ "t.pdf") ∈
      generateHandler
        (fun _ => Except.ok "\x7b\"Topic\": \"T\", \"Story\": \"S\", \"Moral\": \"M\"\x7d")
        "t.pdf" "a brave fox" "Adventure" "English" 8 "Mia" true ∧
    (⟨"Helvetica", 11, "\nMoral:"⟩ : PdfLine) ∈ (generate_pdf ⟨"T", "S", "M"⟩ "t.pdf").lines ∧
    (⟨"Helvetica", 11, "M"⟩ : PdfLine) ∈ (generate_pdf ⟨"T", "S", "M"⟩ "t.pdf").lines :=
  C9_pdf_always_contains_moral
    (fun _ => Except.ok "\x7b\"Topic\": \"T\", \"Story\": \"S\", \"Moral\": \"M\"\x7d")
    "t.pdf" "a brave fox" "Adventure" "English" 8 "Mia" true ⟨"T", "S", "M"⟩
    (by decide) (by decide) rfl

/-- C10: the parent-safe flag, although passed in the invoke dictionary,
is never interpolated into the prompt template: any two invoke inputs
that agree on topic, genre, language, age and name — differing at most
in the parent-safe flag — yield identical assembled messages. -/
theorem C10_parent_safe_never_in_prompt (i j : GenInput)
    (ht : i.topic = j.topic) (hg : i.genre = j.genre) (_hl : i.language = j.language)
    (ha : i.age = j.age) (hn : i.name = j.name) :
    assembledMessages i = assembledMessages j := by
  simp [assembledMessages, humanMessage, ht, hg, ha, hn]

/-- C10 witness: two runs differing only in the parent-safe flag send
the same assembled messages to the service. -/
theorem C10_parent_safe_never_in_prompt_witness :
    assembledMessages ⟨"a brave fox", "Adventure", "English", 8, "Mia", true⟩ =
    assembledMessages ⟨"a brave fox", "Adventure", "English", 8, "Mia", false⟩ :=
  C10_parent_safe_never_in_prompt
    ⟨"a brave fox", "Adventure", "English", 8, "Mia", true⟩
    ⟨"a brave fox", "Adventure", "English", 8, "Mia", false⟩
    rfl rfl rfl rfl rfl
